import Mathlib

/-!
Shallow embedding of the CaptainCashout payment orchestration core:
the transaction data model (shared/schema.ts), the storage layer
(DatabaseStorage in the storage module), and the HTTP handlers of
server/routes.ts (create-payment-intent, cellpay-payment,
trustly-payment, stripe-webhook, trustly-webhook).

Conventions of the embedding:
* Opaque uuid row ids are modelled by a `nextId` counter on the store.
* JSON request fields are `Option` values; a missing field or a falsy
  value (number 0, empty string) fails the handlers' truthiness check,
  matching the JS `!field` guards.
* External collaborators (Stripe SDK, CellPay/Trustly adapters, SMTP)
  are inputs: configuration flags, the adapter's structured result, and
  the id the provider mints.  The Notifier is an output list of the
  notification payloads the handler passes to
  sendPaymentNotificationEmail.
* Handler execution order of the provider call versus the transaction
  insert is recorded in an explicit `trace` output list.
-/

namespace CaptainCashout

/-- Payment status enum (shared/schema.ts, paymentStatusEnum). -/
inductive Status where
  | pending
  | processing
  | completed
  | failed
  | refunded
  deriving DecidableEq, Repr

/-- Transaction row: the columns of the transactions table that the
orchestration core reads or writes (shared/schema.ts). -/
structure Transaction where
  id : Nat
  username : String
  packageId : String
  amount : ℚ
  credits : Int
  paymentMethod : String
  paymentStatus : Status
  stripePaymentIntentId : Option String
  deriving DecidableEq, Repr

/-- Credit package row (shared/schema.ts, creditPackages table). -/
structure CreditPackage where
  id : String
  name : String
  credits : Int
  price : ℚ
  isActive : Bool
  deriving DecidableEq, Repr

/-- Insert payload for a transaction (insertTransactionSchema);
paymentStatus is not insertable and defaults to pending. -/
structure InsertTransaction where
  username : String
  packageId : String
  amount : ℚ
  credits : Int
  paymentMethod : String
  stripePaymentIntentId : Option String
  deriving DecidableEq, Repr

/-- The transactions table plus the id generator. -/
structure Store where
  txs : List Transaction
  nextId : Nat
  deriving DecidableEq, Repr

/-- DatabaseStorage.getCreditPackage: select by id (no isActive filter). -/
def getCreditPackage (catalog : List CreditPackage) (id : String) :
    Option CreditPackage :=
  catalog.find? (fun p => p.id == id)

/-- DatabaseStorage.createTransaction: insert a row; the paymentStatus
column defaults to pending. -/
def createTransaction (s : Store) (d : InsertTransaction) :
    Transaction × Store :=
  let t : Transaction :=
    { id := s.nextId, username := d.username, packageId := d.packageId,
      amount := d.amount, credits := d.credits,
      paymentMethod := d.paymentMethod, paymentStatus := .pending,
      stripePaymentIntentId := d.stripePaymentIntentId }
  (t, { txs := s.txs ++ [t], nextId := s.nextId + 1 })

/-- DatabaseStorage.getTransaction: select by primary key. -/
def getTransaction (s : Store) (id : Nat) : Option Transaction :=
  s.txs.find? (fun t => t.id == id)

/-- DatabaseStorage.getTransactionByPaymentIntentId. -/
def getTransactionByPaymentIntentId (s : Store) (pi : String) :
    Option Transaction :=
  s.txs.find? (fun t => t.stripePaymentIntentId == some pi)

/-- DatabaseStorage.updateTransactionStatus: an unconditional SET of
paymentStatus on every row whose id matches; no conditional guard on
the current status. -/
def updateTransactionStatus (s : Store) (id : Nat) (st : Status) : Store :=
  { s with
    txs := s.txs.map
      (fun t => if t.id = id then { t with paymentStatus := st } else t) }

/-- Payload handed to sendPaymentNotificationEmail by the route
handlers. -/
structure EmailNotification where
  username : String
  amount : ℚ
  credits : Int
  transactionId : Nat
  paymentMethod : String
  deriving DecidableEq, Repr

/-- HTTP outcome of a handler: the 2xx json replies versus the
res.status(code).json error replies. -/
inductive HttpResponse where
  | success (transactionId : Option Nat)
  | failure (code : Nat) (message : String)
  deriving DecidableEq, Repr

/-- Whether a response is a 2xx acknowledgment. -/
def HttpResponse.isSuccess : HttpResponse → Bool
  | .success _ => true
  | .failure _ _ => false

/-- Observable side-effect ordering inside one handler invocation. -/
inductive TraceEvent where
  | providerCall (provider : String)
  | txCreate (id : Nat)
  deriving DecidableEq, Repr

/-- Structured result of a provider adapter call
(processCellPayPayment / processTrustlyPayment return shape). -/
inductive AdapterResult where
  | success (providerTxId : String)
  | failure (error : Option String)
  deriving DecidableEq, Repr

/-- JS `a || b` fallback on a possibly-missing, possibly-empty error
string. -/
def jsOr : Option String → String → String
  | none, d => d
  | some e, d => if e = "" then d else e

/-- Outcome of a webhook handler invocation. -/
structure WebhookResult where
  response : HttpResponse
  store : Store
  notifications : List EmailNotification
  deriving DecidableEq, Repr

/-- Outcome of a begin-payment handler invocation. -/
structure PaymentResult where
  response : HttpResponse
  store : Store
  notifications : List EmailNotification
  trace : List TraceEvent
  deriving DecidableEq, Repr

/-- Environment of the stripe-webhook handler: whether
STRIPE_WEBHOOK_SECRET is set, whether the Stripe client is configured,
and whether stripe.webhooks.constructEvent accepts the signature. -/
structure StripeWebhookEnv where
  secretConfigured : Bool
  stripeConfigured : Bool
  signatureValid : Bool
  deriving DecidableEq, Repr

/-- The fields of a Stripe event the handler reads: the event type, the
payment intent id and amount, and the metadata echoed back. -/
structure StripeEvent where
  eventType : String
  paymentIntentId : String
  amountCents : Int
  metaUsername : String
  metaCredits : Int
  deriving DecidableEq, Repr

/-- The stripe-webhook route handler (server/routes.ts).  A missing
webhook secret throws into the catch (400); an unconfigured Stripe
client returns 500; a bad signature throws from constructEvent (400);
a payment_intent.succeeded event looks the transaction up by intent id,
404s when absent, and otherwise unconditionally sets completed and
emails a notification built from the event's own metadata and amount;
every other event type is acknowledged untouched. -/
def stripeWebhook (env : StripeWebhookEnv) (event : StripeEvent)
    (s : Store) : WebhookResult :=
  if env.secretConfigured = false then
    { response := .failure 400 "Missing Stripe webhook secret",
      store := s, notifications := [] }
  else if env.stripeConfigured = false then
    { response := .failure 500 "Stripe not configured",
      store := s, notifications := [] }
  else if env.signatureValid = false then
    { response := .failure 400 "Webhook signature verification failed",
      store := s, notifications := [] }
  else if event.eventType = "payment_intent.succeeded" then
    match getTransactionByPaymentIntentId s event.paymentIntentId with
    | none =>
      { response := .failure 404 "Transaction not found",
        store := s, notifications := [] }
    | some t =>
      { response := .success none,
        store := updateTransactionStatus s t.id .completed,
        notifications :=
          [{ username := event.metaUsername,
             amount := (event.amountCents : ℚ) / 100,
             credits := event.metaCredits,
             transactionId := t.id,
             paymentMethod := "Stripe" }] }
  else
    { response := .success none, store := s, notifications := [] }

/-- The fields of a Trustly webhook notification the handler reads. -/
structure TrustlyNotification where
  method : String
  hasParams : Bool
  messageid : Nat
  amount : ℚ
  deriving DecidableEq, Repr

/-- The trustly-webhook route handler (server/routes.ts).  No signature
verification is performed (the source only logs the notification and
comments that production would verify), so the configured private key
is never consulted.  A credit notification with params fetches the
transaction by the messageid, unconditionally sets completed and emails
a notification when found, and is acknowledged with status OK in every
case. -/
def trustlyWebhook (privateKeyConfigured : Bool)
    (notif : TrustlyNotification) (s : Store) : WebhookResult :=
  let _unusedKey := privateKeyConfigured
  if notif.method = "credit" ∧ notif.hasParams = true then
    match getTransaction s notif.messageid with
    | some t =>
      { response := .success none,
        store := updateTransactionStatus s t.id .completed,
        notifications :=
          [{ username := t.username, amount := notif.amount,
             credits := t.credits, transactionId := t.id,
             paymentMethod := "Trustly" }] }
    | none =>
      { response := .success none, store := s, notifications := [] }
  else
    { response := .success none, store := s, notifications := [] }

/-- Environment of create-payment-intent: whether the Stripe client is
configured and the intent id the provider mints for this call. -/
structure StripeEnv where
  stripeConfigured : Bool
  newIntentId : String
  deriving DecidableEq, Repr

/-- Body of a create-payment-intent request. -/
structure PaymentIntentRequest where
  amount : Option ℚ
  username : Option String
  packageId : Option String
  paymentMethod : String
  deriving DecidableEq, Repr

/-- The create-payment-intent route handler (server/routes.ts).  Field
presence is the only amount validation; the package is then resolved
(404 when absent), the Stripe client checked (500 when absent), the
payment intent created at the provider, and only afterwards the
transaction row inserted in status pending with the package's credits
and the intent id as provider reference. -/
def createPaymentIntent (env : StripeEnv) (catalog : List CreditPackage)
    (req : PaymentIntentRequest) (s : Store) : PaymentResult :=
  match req.amount, req.username, req.packageId with
  | some amount, some username, some packageId =>
    if amount = 0 ∨ username = "" ∨ packageId = "" then
      { response :=
          .failure 400 "Missing required fields: amount, username, packageId",
        store := s, notifications := [], trace := [] }
    else
      match getCreditPackage catalog packageId with
      | none =>
        { response := .failure 404 "Credit package not found",
          store := s, notifications := [], trace := [] }
      | some pkg =>
        if env.stripeConfigured = false then
          { response := .failure 500 "Payment processing not configured",
            store := s, notifications := [], trace := [] }
        else
          let (t, s1) := createTransaction s
            { username := username, packageId := packageId,
              amount := amount, credits := pkg.credits,
              paymentMethod := req.paymentMethod,
              stripePaymentIntentId := some env.newIntentId }
          { response := .success (some t.id),
            store := s1, notifications := [],
            trace := [.providerCall "stripe", .txCreate t.id] }
  | _, _, _ =>
    { response :=
        .failure 400 "Missing required fields: amount, username, packageId",
      store := s, notifications := [], trace := [] }

/-- Body of a cellpay-payment request. -/
structure CellPayRequest where
  amount : Option ℚ
  username : Option String
  packageId : Option String
  phoneNumber : Option String
  deriving DecidableEq, Repr

/-- The cellpay-payment route handler (server/routes.ts).  After the
presence check and package resolution the transaction is inserted in
pending, then the adapter is called; on success the row is set
completed and a success notification emailed, on failure the row is
set failed and a 400 with the adapter's error text (or the default) is
returned with no notification. -/
def cellpayPayment (catalog : List CreditPackage) (req : CellPayRequest)
    (adapter : AdapterResult) (s : Store) : PaymentResult :=
  match req.amount, req.username, req.packageId, req.phoneNumber with
  | some amount, some username, some packageId, some phone =>
    if amount = 0 ∨ username = "" ∨ packageId = "" ∨ phone = "" then
      { response := .failure 400
          "Missing required fields: amount, username, packageId, phoneNumber",
        store := s, notifications := [], trace := [] }
    else
      match getCreditPackage catalog packageId with
      | none =>
        { response := .failure 404 "Package not found",
          store := s, notifications := [], trace := [] }
      | some pkg =>
        let (t, s1) := createTransaction s
          { username := username, packageId := packageId, amount := amount,
            credits := pkg.credits, paymentMethod := "cellpay",
            stripePaymentIntentId := none }
        match adapter with
        | .success _ =>
          { response := .success (some t.id),
            store := updateTransactionStatus s1 t.id .completed,
            notifications :=
              [{ username := username, amount := amount,
                 credits := pkg.credits, transactionId := t.id,
                 paymentMethod := "CellPay" }],
            trace := [.txCreate t.id, .providerCall "cellpay"] }
        | .failure e =>
          { response := .failure 400 (jsOr e "CellPay payment failed"),
            store := updateTransactionStatus s1 t.id .failed,
            notifications := [],
            trace := [.txCreate t.id, .providerCall "cellpay"] }
  | _, _, _, _ =>
    { response := .failure 400
        "Missing required fields: amount, username, packageId, phoneNumber",
      store := s, notifications := [], trace := [] }

/-- Body of a trustly-payment request (country defaults to US at the
destructuring site, so a caller omitting it still passes the check). -/
structure TrustlyRequest where
  amount : Option ℚ
  username : Option String
  packageId : Option String
  country : Option String
  firstName : Option String
  lastName : Option String
  email : Option String
  deriving DecidableEq, Repr

/-- Deposit parameters processTrustlyPayment sends to the provider; the
messageid is the transaction's own row id. -/
structure TrustlyDepositParams where
  enduserid : String
  messageid : Nat
  amount : ℚ
  currency : String
  deriving DecidableEq, Repr

/-- Outcome of a trustly-payment invocation, with the deposit request
the adapter dispatched (none when the adapter was never reached). -/
structure TrustlyPaymentResult where
  response : HttpResponse
  store : Store
  notifications : List EmailNotification
  trace : List TraceEvent
  deposit : Option TrustlyDepositParams
  deriving DecidableEq, Repr

/-- The trustly-payment route handler (server/routes.ts).  Same shape
as cellpay-payment: presence check, package resolution, pending insert,
then processTrustlyPayment with messageid equal to the new row id; on
success completed plus a notification, on failure failed plus a 400
carrying the adapter's error text and no notification. -/
def trustlyPayment (catalog : List CreditPackage) (req : TrustlyRequest)
    (adapter : AdapterResult) (s : Store) : TrustlyPaymentResult :=
  match req.amount, req.username, req.packageId, req.country,
    req.firstName, req.lastName, req.email with
  | some amount, some username, some packageId, some country,
    some firstName, some lastName, some email =>
    if amount = 0 ∨ username = "" ∨ packageId = "" ∨ country = "" ∨
        firstName = "" ∨ lastName = "" ∨ email = "" then
      { response := .failure 400
          "Missing required fields: amount, username, packageId, country, firstName, lastName, email",
        store := s, notifications := [], trace := [], deposit := none }
    else
      match getCreditPackage catalog packageId with
      | none =>
        { response := .failure 404 "Package not found",
          store := s, notifications := [], trace := [], deposit := none }
      | some pkg =>
        let (t, s1) := createTransaction s
          { username := username, packageId := packageId, amount := amount,
            credits := pkg.credits, paymentMethod := "trustly",
            stripePaymentIntentId := none }
        let dep : TrustlyDepositParams :=
          { enduserid := email, messageid := t.id, amount := amount,
            currency := "USD" }
        match adapter with
        | .success _ =>
          { response := .success (some t.id),
            store := updateTransactionStatus s1 t.id .completed,
            notifications :=
              [{ username := username, amount := amount,
                 credits := pkg.credits, transactionId := t.id,
                 paymentMethod := "Trustly" }],
            trace := [.txCreate t.id, .providerCall "trustly"],
            deposit := some dep }
        | .failure e =>
          { response := .failure 400 (jsOr e "Trustly payment failed"),
            store := updateTransactionStatus s1 t.id .failed,
            notifications := [],
            trace := [.txCreate t.id, .providerCall "trustly"],
            deposit := some dep }
  | _, _, _, _, _, _, _ =>
    { response := .failure 400
        "Missing required fields: amount, username, packageId, country, firstName, lastName, email",
      store := s, notifications := [], trace := [], deposit := none }

/-! Helper lemmas about the storage layer, shared by several claims. -/

/-- A row of the updated store whose id is the updated id carries the
written status: updateTransactionStatus is an unconditional write. -/
theorem updateTransactionStatus_mem_id (s : Store) (id : Nat) (st : Status)
    (u : Transaction) (hu : u ∈ (updateTransactionStatus s id st).txs)
    (hid : u.id = id) : u.paymentStatus = st := by
  simp only [updateTransactionStatus, List.mem_map] at hu
  obtain ⟨v, _, huv⟩ := hu
  by_cases h : v.id = id
  · simp only [h, if_true] at huv
    rw [← huv]
  · simp only [h, if_false] at huv
    exact absurd (huv ▸ hid) h

/-- Rows whose id differs from the updated id are left in the store
untouched by updateTransactionStatus. -/
theorem updateTransactionStatus_mem_of_ne (s : Store) (id : Nat)
    (st : Status) (u : Transaction) (hu : u ∈ s.txs) (hne : u.id ≠ id) :
    u ∈ (updateTransactionStatus s id st).txs := by
  simp only [updateTransactionStatus, List.mem_map]
  exact ⟨u, hu, by simp [hne]⟩

/-- A transaction fetched by id has that id. -/
theorem getTransaction_id (s : Store) (id : Nat) (t : Transaction)
    (h : getTransaction s id = some t) : t.id = id := by
  have := List.find?_some h
  simpa using this

/-- A transaction fetched by provider reference stores that reference. -/
theorem getTransactionByPaymentIntentId_ref (s : Store) (pi : String)
    (t : Transaction) (h : getTransactionByPaymentIntentId s pi = some t) :
    t.stripePaymentIntentId = some pi := by
  have := List.find?_some h
  simpa using this

/-! Concrete fixtures used by counterexamples and witnesses. -/

/-- An active catalog package: 1000 credits for ten dollars. -/
def pkgGold : CreditPackage :=
  { id := "gold", name := "Gold", credits := 1000, price := 10,
    isActive := true }

/-- A one-package catalog. -/
def catalog1 : List CreditPackage := [pkgGold]

/-- The empty store. -/
def store0 : Store := { txs := [], nextId := 1 }

/-- A card transaction already settled as completed, referencing the
provider intent pi_1. -/
def txCompleted1 : Transaction :=
  { id := 1, username := "alice", packageId := "gold", amount := 25,
    credits := 1000, paymentMethod := "stripe_card",
    paymentStatus := .completed, stripePaymentIntentId := some "pi_1" }

/-- Store holding only the already-completed transaction. -/
def storeCompleted1 : Store := { txs := [txCompleted1], nextId := 2 }

/-- The same transaction in terminal state failed. -/
def txFailed1 : Transaction :=
  { txCompleted1 with paymentStatus := .failed }

/-- Store holding only the failed transaction. -/
def storeFailed1 : Store := { txs := [txFailed1], nextId := 2 }

/-- The same transaction still pending. -/
def txPending1 : Transaction :=
  { txCompleted1 with paymentStatus := .pending }

/-- Store holding only the pending transaction. -/
def storePending1 : Store := { txs := [txPending1], nextId := 2 }

/-- Fully configured stripe-webhook environment with a valid signature. -/
def envOk : StripeWebhookEnv :=
  { secretConfigured := true, stripeConfigured := true,
    signatureValid := true }

/-- An authenticated settlement event for intent pi_1 over 2500 cents. -/
def evtSucceeded1 : StripeEvent :=
  { eventType := "payment_intent.succeeded", paymentIntentId := "pi_1",
    amountCents := 2500, metaUsername := "alice", metaCredits := 1000 }

/-- The same settlement event pointing at an unknown intent id. -/
def evtUnknownPi : StripeEvent :=
  { evtSucceeded1 with paymentIntentId := "pi_unknown" }

/-- A failure event for intent pi_1. -/
def evtFailed1 : StripeEvent :=
  { evtSucceeded1 with eventType := "payment_intent.payment_failed" }

/-- A Trustly credit notification whose messageid is transaction 1. -/
def creditNotif1 : TrustlyNotification :=
  { method := "credit", hasParams := true, messageid := 1, amount := 25 }

/-- A Trustly credit notification whose messageid matches nothing. -/
def creditNotifUnknown : TrustlyNotification :=
  { creditNotif1 with messageid := 999 }

/-! Claim C1: webhook idempotence on terminal transactions. -/

/-- C1 counterexample: the stored transaction referenced by the event is
already in terminal state completed, yet delivering the settlement event
again acknowledges with success while STILL emitting a notification
(and re-running the status write), so the second delivery has side
effects, contrary to the claim. -/
theorem c1_counterexample :
    txCompleted1.paymentStatus = .completed ∧
    (stripeWebhook envOk evtSucceeded1 storeCompleted1).notifications.length = 1 ∧
    (stripeWebhook envOk evtSucceeded1 storeCompleted1).response = .success none := by
  decide

/-- C1 (amended): the stripe-webhook handler has no terminal-state
duplicate check: whenever an authenticated payment_intent.succeeded
event resolves to a stored transaction, even one already in a terminal
state (completed or failed), the handler acknowledges with success,
re-applies the completed status write, and re-sends exactly one
notification, so duplicate deliveries produce duplicate notifications. -/
theorem c1_amended (env : StripeWebhookEnv) (event : StripeEvent)
    (s : Store) (t : Transaction)
    (hsec : env.secretConfigured = true)
    (hcfg : env.stripeConfigured = true)
    (hsig : env.signatureValid = true)
    (htype : event.eventType = "payment_intent.succeeded")
    (hfind : getTransactionByPaymentIntentId s event.paymentIntentId = some t)
    (_hterm : t.paymentStatus = .completed ∨ t.paymentStatus = .failed) :
    (stripeWebhook env event s).response = .success none ∧
    (stripeWebhook env event s).store = updateTransactionStatus s t.id .completed ∧
    (stripeWebhook env event s).notifications.length = 1 := by
  simp [stripeWebhook, hsec, hcfg, hsig, htype, hfind]

/-- C1 amended witness: instantiation at the completed transaction. -/
theorem c1_amended_witness :
    (stripeWebhook envOk evtSucceeded1 storeCompleted1).response = .success none ∧
    (stripeWebhook envOk evtSucceeded1 storeCompleted1).store =
      updateTransactionStatus storeCompleted1 txCompleted1.id .completed ∧
    (stripeWebhook envOk evtSucceeded1 storeCompleted1).notifications.length = 1 :=
  c1_amended envOk evtSucceeded1 storeCompleted1 txCompleted1 rfl rfl rfl rfl
    (by decide) (Or.inl rfl)

/-! Claim C2: fail-closed webhook authentication on every endpoint. -/

/-- C2 counterexample: the trustly-webhook endpoint performs no
signature verification at all — with the signing key unconfigured
(first argument false) a credit event is still accepted with a success
response, the pending transaction is mutated, and a notification is
sent, contrary to the fail-closed claim. -/
theorem c2_counterexample :
    (trustlyWebhook false creditNotif1 storePending1).response = .success none ∧
    (trustlyWebhook false creditNotif1 storePending1).store ≠ storePending1 ∧
    (trustlyWebhook false creditNotif1 storePending1).notifications.length = 1 := by
  decide

/-- C2 (amended): only the stripe webhook fails closed — a missing
signing secret or a failed signature verification yields a non-success
response with no store mutation and no notification; the trustly
webhook performs no verification, behaving identically whether or not
its signing key is configured. -/
theorem c2_amended (env : StripeWebhookEnv) (event : StripeEvent) (s : Store)
    (h : env.secretConfigured = false ∨ env.signatureValid = false) :
    ((stripeWebhook env event s).response.isSuccess = false ∧
     (stripeWebhook env event s).store = s ∧
     (stripeWebhook env event s).notifications = []) ∧
    ∀ (notif : TrustlyNotification) (s2 : Store),
      trustlyWebhook false notif s2 = trustlyWebhook true notif s2 := by
  constructor
  · rcases env with ⟨sec, cfg, sig⟩
    cases sec <;> cases cfg <;> cases sig <;>
      simp_all [stripeWebhook, HttpResponse.isSuccess]
  · intro notif s2
    rfl

/-- C2 amended witness: instantiation with the secret unconfigured. -/
theorem c2_amended_witness :
    ((stripeWebhook { envOk with secretConfigured := false } evtSucceeded1
        storePending1).response.isSuccess = false ∧
     (stripeWebhook { envOk with secretConfigured := false } evtSucceeded1
        storePending1).store = storePending1 ∧
     (stripeWebhook { envOk with secretConfigured := false } evtSucceeded1
        storePending1).notifications = []) ∧
    ∀ (notif : TrustlyNotification) (s2 : Store),
      trustlyWebhook false notif s2 = trustlyWebhook true notif s2 :=
  c2_amended { envOk with secretConfigured := false } evtSucceeded1
    storePending1 (Or.inl rfl)

/-! Claim C3: unknown-reference webhook swallowing. -/

/-- C3 counterexample: an authenticated settlement event whose intent id
matches no stored transaction is answered by the stripe webhook with a
404 — a non-success response — not the claimed success acknowledgment. -/
theorem c3_counterexample :
    (stripeWebhook envOk evtUnknownPi storeCompleted1).response =
      .failure 404 "Transaction not found" ∧
    (stripeWebhook envOk evtUnknownPi storeCompleted1).response.isSuccess = false ∧
    (stripeWebhook envOk evtUnknownPi storeCompleted1).store = storeCompleted1 ∧
    (stripeWebhook envOk evtUnknownPi storeCompleted1).notifications = [] := by
  decide

/-- C3 (amended): on an unknown provider reference neither webhook
mutates the store or notifies, but the acknowledgments differ by
provider: the stripe webhook rejects with a 404 non-success response,
while the trustly webhook acknowledges with a success response. -/
theorem c3_amended (env : StripeWebhookEnv) (event : StripeEvent) (s : Store)
    (notif : TrustlyNotification) (s2 : Store) (key : Bool)
    (hsec : env.secretConfigured = true)
    (hcfg : env.stripeConfigured = true)
    (hsig : env.signatureValid = true)
    (htype : event.eventType = "payment_intent.succeeded")
    (hnone : getTransactionByPaymentIntentId s event.paymentIntentId = none)
    (hm : notif.method = "credit") (hp : notif.hasParams = true)
    (hnone2 : getTransaction s2 notif.messageid = none) :
    stripeWebhook env event s =
      { response := .failure 404 "Transaction not found", store := s,
        notifications := [] } ∧
    trustlyWebhook key notif s2 =
      { response := .success none, store := s2, notifications := [] } := by
  constructor
  · simp [stripeWebhook, hsec, hcfg, hsig, htype, hnone]
  · simp [trustlyWebhook, hm, hp, hnone2]

/-- C3 amended witness: unknown references at both endpoints. -/
theorem c3_amended_witness :
    stripeWebhook envOk evtUnknownPi storeCompleted1 =
      { response := .failure 404 "Transaction not found",
        store := storeCompleted1, notifications := [] } ∧
    trustlyWebhook false creditNotifUnknown storeCompleted1 =
      { response := .success none, store := storeCompleted1,
        notifications := [] } :=
  c3_amended envOk evtUnknownPi storeCompleted1 creditNotifUnknown
    storeCompleted1 false rfl rfl rfl rfl (by decide) rfl rfl (by decide)

/-! Claim C4: forward-only status state machine. -/

/-- C4 counterexample: a transaction already in terminal state failed is
moved back out of it to completed by a subsequent settlement webhook, so
a terminal state does not freeze the status. -/
theorem c4_counterexample :
    txFailed1.paymentStatus = .failed ∧
    getTransaction (stripeWebhook envOk evtSucceeded1 storeFailed1).store 1 =
      some { txFailed1 with paymentStatus := .completed } := by
  decide

/-- C4 (amended): status writes are unconditional — the settlement
webhook sets every row matching the event's transaction id to completed
regardless of the previously stored status (in particular terminal
failed is overwritten), and updateTransactionStatus itself applies any
requested status with no forward-only guard. -/
theorem c4_amended (env : StripeWebhookEnv) (event : StripeEvent)
    (s : Store) (t u : Transaction)
    (hsec : env.secretConfigured = true)
    (hcfg : env.stripeConfigured = true)
    (hsig : env.signatureValid = true)
    (htype : event.eventType = "payment_intent.succeeded")
    (hfind : getTransactionByPaymentIntentId s event.paymentIntentId = some t)
    (hu : u ∈ (stripeWebhook env event s).store.txs) (hid : u.id = t.id) :
    u.paymentStatus = .completed := by
  have hst : (stripeWebhook env event s).store =
      updateTransactionStatus s t.id .completed := by
    simp [stripeWebhook, hsec, hcfg, hsig, htype, hfind]
  rw [hst] at hu
  exact updateTransactionStatus_mem_id s t.id .completed u hu hid

/-- C4 amended witness: the failed row is overwritten to completed. -/
theorem c4_amended_witness :
    ({ txFailed1 with paymentStatus := Status.completed } :
      Transaction).paymentStatus = .completed :=
  c4_amended envOk evtSucceeded1 storeFailed1 txFailed1
    { txFailed1 with paymentStatus := .completed } rfl rfl rfl rfl
    (by decide) (by decide) rfl

/-! Claim C5: amount-bounds validation on Begin Payment. -/

/-- Configured stripe provider environment for begin-payment calls. -/
def stripeEnvOk : StripeEnv :=
  { stripeConfigured := true, newIntentId := "pi_9" }

/-- A request whose amount 5 is below the configured minimum reload of
10 (the bound the client enforces; scenario B of the spec). -/
def reqLowAmount : PaymentIntentRequest :=
  { amount := some 5, username := some "bob", packageId := some "gold",
    paymentMethod := "stripe_card" }

/-- C5 counterexample: an amount of 5 — below the configured minimum
reload amount of 10 — is not rejected: Begin Payment answers success
and a Transaction row is created, contrary to the claimed validation
failure with no row. -/
theorem c5_counterexample :
    (createPaymentIntent stripeEnvOk catalog1 reqLowAmount store0).response.isSuccess = true ∧
    (createPaymentIntent stripeEnvOk catalog1 reqLowAmount store0).store.txs.length = 1 := by
  decide

/-- C5 (amended): the server performs no amount-bounds validation at
all — the only amount check is JS truthiness, so every present nonzero
amount (below the minimum, above the maximum, even negative) passes
validation and, once the package resolves and the provider is
configured, a Transaction row is created; only a missing or falsy
amount is rejected with a 400 and no row. -/
theorem c5_amended (env : StripeEnv) (catalog : List CreditPackage)
    (req : PaymentIntentRequest) (s : Store) (amount : ℚ)
    (username packageId : String) (pkg : CreditPackage)
    (ha : req.amount = some amount) (hu : req.username = some username)
    (hp : req.packageId = some packageId)
    (ha0 : amount ≠ 0) (hu0 : username ≠ "") (hp0 : packageId ≠ "")
    (hpkg : getCreditPackage catalog packageId = some pkg)
    (hcfg : env.stripeConfigured = true) :
    ((createPaymentIntent env catalog req s).response.isSuccess = true ∧
     (createPaymentIntent env catalog req s).store.txs.length = s.txs.length + 1) ∧
    ∀ (req2 : PaymentIntentRequest), req2.amount = none →
      (createPaymentIntent env catalog req2 s).response =
        .failure 400 "Missing required fields: amount, username, packageId" ∧
      (createPaymentIntent env catalog req2 s).store = s := by
  constructor
  · simp [createPaymentIntent, ha, hu, hp, ha0, hu0, hp0, hpkg, hcfg,
      createTransaction, HttpResponse.isSuccess]
  · intro req2 ha2
    rcases req2 with ⟨a2, u2, p2, m2⟩
    simp only at ha2
    subst ha2
    cases u2 <;> cases p2 <;> simp [createPaymentIntent]

/-- C5 amended witness: the below-minimum amount 5 creates a row and a
request with no amount is rejected without one. -/
theorem c5_amended_witness :
    (((createPaymentIntent stripeEnvOk catalog1 reqLowAmount store0).response.isSuccess = true ∧
      (createPaymentIntent stripeEnvOk catalog1 reqLowAmount store0).store.txs.length =
        store0.txs.length + 1) ∧
     ∀ (req2 : PaymentIntentRequest), req2.amount = none →
       (createPaymentIntent stripeEnvOk catalog1 req2 store0).response =
         .failure 400 "Missing required fields: amount, username, packageId" ∧
       (createPaymentIntent stripeEnvOk catalog1 req2 store0).store = store0) :=
  c5_amended stripeEnvOk catalog1 reqLowAmount store0 5 "bob" "gold" pkgGold
    rfl rfl rfl (by decide) (by decide) (by decide) (by decide) rfl

/-! Claim C6: transaction-before-provider ordering. -/

/-- A well-formed card begin-payment request for 25 dollars. -/
def reqCard25 : PaymentIntentRequest :=
  { amount := some 25, username := some "alice", packageId := some "gold",
    paymentMethod := "stripe_card" }

/-- A well-formed cellpay begin-payment request for 25 dollars. -/
def cellReq25 : CellPayRequest :=
  { amount := some 25, username := some "dave", packageId := some "gold",
    phoneNumber := some "5551234567" }

/-- A well-formed trustly begin-payment request for 25 dollars. -/
def trustlyReq25 : TrustlyRequest :=
  { amount := some 25, username := some "erin", packageId := some "gold",
    country := some "US", firstName := some "Erin",
    lastName := some "Example", email := some "erin@example.com" }

/-- C6 counterexample: in the card flow the provider call (payment
intent creation) happens BEFORE the transaction row is inserted — the
handler's side-effect trace puts the provider call first — contrary to
the claim that every payment method persists the pending Transaction
before any provider-adapter call. -/
theorem c6_counterexample :
    (createPaymentIntent stripeEnvOk catalog1 reqCard25 store0).trace =
      [TraceEvent.providerCall "stripe", TraceEvent.txCreate 1] := by
  decide

/-- C6 (amended): the synchronous-settlement methods (cellpay and
trustly) insert the pending Transaction before invoking the provider
adapter, but the card method does the opposite: it creates the provider
payment intent first and inserts the Transaction only afterwards. -/
theorem c6_amended (catalog : List CreditPackage) (pkg : CreditPackage) :
    (∀ (req : CellPayRequest) (a : AdapterResult) (s : Store) (amount : ℚ)
       (username packageId phone : String),
       req.amount = some amount → req.username = some username →
       req.packageId = some packageId → req.phoneNumber = some phone →
       amount ≠ 0 → username ≠ "" → packageId ≠ "" → phone ≠ "" →
       getCreditPackage catalog packageId = some pkg →
       (cellpayPayment catalog req a s).trace =
         [TraceEvent.txCreate s.nextId, TraceEvent.providerCall "cellpay"]) ∧
    (∀ (req : TrustlyRequest) (a : AdapterResult) (s : Store) (amount : ℚ)
       (username packageId country firstName lastName email : String),
       req.amount = some amount → req.username = some username →
       req.packageId = some packageId → req.country = some country →
       req.firstName = some firstName → req.lastName = some lastName →
       req.email = some email →
       amount ≠ 0 → username ≠ "" → packageId ≠ "" → country ≠ "" →
       firstName ≠ "" → lastName ≠ "" → email ≠ "" →
       getCreditPackage catalog packageId = some pkg →
       (trustlyPayment catalog req a s).trace =
         [TraceEvent.txCreate s.nextId, TraceEvent.providerCall "trustly"]) ∧
    (∀ (env : StripeEnv) (req : PaymentIntentRequest) (s : Store) (amount : ℚ)
       (username packageId : String),
       req.amount = some amount → req.username = some username →
       req.packageId = some packageId →
       amount ≠ 0 → username ≠ "" → packageId ≠ "" →
       getCreditPackage catalog packageId = some pkg →
       env.stripeConfigured = true →
       (createPaymentIntent env catalog req s).trace =
         [TraceEvent.providerCall "stripe", TraceEvent.txCreate s.nextId]) := by
  refine ⟨?_, ?_, ?_⟩
  · intro req a s amount username packageId phone ha hu hp hph ha0 hu0 hp0 hph0 hpkg
    rcases a with tid | e <;>
      simp [cellpayPayment, ha, hu, hp, hph, ha0, hu0, hp0, hph0, hpkg,
        createTransaction]
  · intro req a s amount username packageId country firstName lastName email
      ha hu hp hc hf hl he ha0 hu0 hp0 hc0 hf0 hl0 he0 hpkg
    rcases a with tid | e <;>
      simp [trustlyPayment, ha, hu, hp, hc, hf, hl, he, ha0, hu0, hp0, hc0,
        hf0, hl0, he0, hpkg, createTransaction]
  · intro env req s amount username packageId ha hu hp ha0 hu0 hp0 hpkg hcfg
    simp [createPaymentIntent, ha, hu, hp, ha0, hu0, hp0, hpkg, hcfg,
      createTransaction]

/-- C6 amended witness: the three concrete traces. -/
theorem c6_amended_witness :
    (cellpayPayment catalog1 cellReq25 (.success "cp_1") store0).trace =
      [TraceEvent.txCreate store0.nextId, TraceEvent.providerCall "cellpay"] ∧
    (trustlyPayment catalog1 trustlyReq25 (.success "tr_1") store0).trace =
      [TraceEvent.txCreate store0.nextId, TraceEvent.providerCall "trustly"] ∧
    (createPaymentIntent stripeEnvOk catalog1 reqCard25 store0).trace =
      [TraceEvent.providerCall "stripe", TraceEvent.txCreate store0.nextId] :=
  ⟨(c6_amended catalog1 pkgGold).1 cellReq25 (.success "cp_1") store0 25
      "dave" "gold" "5551234567" rfl rfl rfl rfl (by decide) (by decide)
      (by decide) (by decide) (by decide),
   (c6_amended catalog1 pkgGold).2.1 trustlyReq25 (.success "tr_1") store0 25
      "erin" "gold" "US" "Erin" "Example" "erin@example.com" rfl rfl rfl rfl
      rfl rfl rfl (by decide) (by decide) (by decide) (by decide) (by decide)
      (by decide) (by decide) (by decide),
   (c6_amended catalog1 pkgGold).2.2 stripeEnvOk reqCard25 store0 25 "alice"
      "gold" rfl rfl rfl (by decide) (by decide) (by decide) (by decide) rfl⟩

/-! Claim C7: synchronous failure branch. -/

/-- C7 counterexample: when the cellpay adapter reports failure the
handler marks the row failed and returns the 400 with the adapter's
error text, but it fires NO notification — contrary to the claimed
exactly-one failure notification carrying the error text. -/
theorem c7_counterexample :
    (cellpayPayment catalog1 cellReq25
        (.failure (some "Card declined")) store0).notifications = [] ∧
    (cellpayPayment catalog1 cellReq25
        (.failure (some "Card declined")) store0).response =
      .failure 400 "Card declined" := by
  decide

/-- C7 (amended): on a synchronous adapter failure (cellpay or trustly)
the transaction created pending in the same request is set to failed
and the response is a 400 carrying the adapter's error text (or the
handler's default message), but no failure notification is sent — the
Notifier is only invoked on the success branch. -/
theorem c7_amended (catalog : List CreditPackage) (pkg : CreditPackage) :
    (∀ (req : CellPayRequest) (e : Option String) (s : Store) (amount : ℚ)
       (username packageId phone : String),
       req.amount = some amount → req.username = some username →
       req.packageId = some packageId → req.phoneNumber = some phone →
       amount ≠ 0 → username ≠ "" → packageId ≠ "" → phone ≠ "" →
       getCreditPackage catalog packageId = some pkg →
       (cellpayPayment catalog req (.failure e) s).response =
         .failure 400 (jsOr e "CellPay payment failed") ∧
       (cellpayPayment catalog req (.failure e) s).notifications = [] ∧
       ∃ t ∈ (cellpayPayment catalog req (.failure e) s).store.txs,
         t.id = s.nextId ∧ t.paymentStatus = .failed ∧
         t.username = username ∧ t.amount = amount) ∧
    (∀ (req : TrustlyRequest) (e : Option String) (s : Store) (amount : ℚ)
       (username packageId country firstName lastName email : String),
       req.amount = some amount → req.username = some username →
       req.packageId = some packageId → req.country = some country →
       req.firstName = some firstName → req.lastName = some lastName →
       req.email = some email →
       amount ≠ 0 → username ≠ "" → packageId ≠ "" → country ≠ "" →
       firstName ≠ "" → lastName ≠ "" → email ≠ "" →
       getCreditPackage catalog packageId = some pkg →
       (trustlyPayment catalog req (.failure e) s).response =
         .failure 400 (jsOr e "Trustly payment failed") ∧
       (trustlyPayment catalog req (.failure e) s).notifications = [] ∧
       ∃ t ∈ (trustlyPayment catalog req (.failure e) s).store.txs,
         t.id = s.nextId ∧ t.paymentStatus = .failed ∧
         t.username = username ∧ t.amount = amount) := by
  constructor
  · intro req e s amount username packageId phone ha hu hp hph ha0 hu0 hp0 hph0 hpkg
    refine ⟨?_, ?_, ?_⟩
    · simp [cellpayPayment, ha, hu, hp, hph, ha0, hu0, hp0, hph0, hpkg,
        createTransaction]
    · simp [cellpayPayment, ha, hu, hp, hph, ha0, hu0, hp0, hph0, hpkg,
        createTransaction]
    · simp [cellpayPayment, ha, hu, hp, hph, ha0, hu0, hp0, hph0, hpkg,
        createTransaction, updateTransactionStatus]
      exact ⟨{ id := s.nextId, username := username, packageId := packageId,
               amount := amount, credits := pkg.credits,
               paymentMethod := "cellpay", paymentStatus := .failed,
               stripePaymentIntentId := none },
             Or.inr rfl, rfl, rfl, rfl, rfl⟩
  · intro req e s amount username packageId country firstName lastName email
      ha hu hp hc hf hl he ha0 hu0 hp0 hc0 hf0 hl0 he0 hpkg
    refine ⟨?_, ?_, ?_⟩
    · simp [trustlyPayment, ha, hu, hp, hc, hf, hl, he, ha0, hu0, hp0, hc0,
        hf0, hl0, he0, hpkg, createTransaction]
    · simp [trustlyPayment, ha, hu, hp, hc, hf, hl, he, ha0, hu0, hp0, hc0,
        hf0, hl0, he0, hpkg, createTransaction]
    · simp [trustlyPayment, ha, hu, hp, hc, hf, hl, he, ha0, hu0, hp0,
        hc0, hf0, hl0, he0, hpkg, createTransaction, updateTransactionStatus]
      exact ⟨{ id := s.nextId, username := username, packageId := packageId,
               amount := amount, credits := pkg.credits,
               paymentMethod := "trustly", paymentStatus := .failed,
               stripePaymentIntentId := none },
             Or.inr rfl, rfl, rfl, rfl, rfl⟩

/-- C7 amended witness: concrete adapter failures on both methods. -/
theorem c7_amended_witness :
    ((cellpayPayment catalog1 cellReq25
        (.failure (some "Card declined")) store0).response =
      .failure 400 (jsOr (some "Card declined") "CellPay payment failed") ∧
     (cellpayPayment catalog1 cellReq25
        (.failure (some "Card declined")) store0).notifications = [] ∧
     ∃ t ∈ (cellpayPayment catalog1 cellReq25
        (.failure (some "Card declined")) store0).store.txs,
       t.id = store0.nextId ∧ t.paymentStatus = .failed ∧
       t.username = "dave" ∧ t.amount = 25) ∧
    ((trustlyPayment catalog1 trustlyReq25 (.failure none) store0).response =
      .failure 400 (jsOr none "Trustly payment failed") ∧
     (trustlyPayment catalog1 trustlyReq25 (.failure none) store0).notifications = [] ∧
     ∃ t ∈ (trustlyPayment catalog1 trustlyReq25
        (.failure none) store0).store.txs,
       t.id = store0.nextId ∧ t.paymentStatus = .failed ∧
       t.username = "erin" ∧ t.amount = 25) :=
  ⟨(c7_amended catalog1 pkgGold).1 cellReq25 (some "Card declined") store0 25
      "dave" "gold" "5551234567" rfl rfl rfl rfl (by decide) (by decide)
      (by decide) (by decide) (by decide),
   (c7_amended catalog1 pkgGold).2 trustlyReq25 none store0 25 "erin" "gold"
      "US" "Erin" "Example" "erin@example.com" rfl rfl rfl rfl rfl rfl rfl
      (by decide) (by decide) (by decide) (by decide) (by decide) (by decide)
      (by decide) (by decide)⟩

/-! Claim C8: webhook outcome dispatch. -/

/-- C8 counterexample: a payment_intent.payment_failed event for a
pending transaction is acknowledged with success but triggers no
transition to failed and no notification — the handler dispatches only
the success event type, contrary to the claimed failed-branch
dispatch. -/
theorem c8_counterexample :
    txPending1.paymentStatus = .pending ∧
    (stripeWebhook envOk evtFailed1 storePending1).store = storePending1 ∧
    (stripeWebhook envOk evtFailed1 storePending1).notifications = [] ∧
    (stripeWebhook envOk evtFailed1 storePending1).response = .success none := by
  decide

/-- C8 (amended): the stripe webhook dispatches only success — an
authenticated payment_intent.succeeded event resolving to a stored
transaction sets it completed and fires exactly one notification whose
amount is the provider's stated amount (cents divided by 100), while
every other event type, failure events included, is acknowledged with
success and produces no transition and no notification. -/
theorem c8_amended (env : StripeWebhookEnv) (event : StripeEvent) (s : Store)
    (hsec : env.secretConfigured = true)
    (hcfg : env.stripeConfigured = true)
    (hsig : env.signatureValid = true) :
    (∀ t : Transaction,
       event.eventType = "payment_intent.succeeded" →
       getTransactionByPaymentIntentId s event.paymentIntentId = some t →
       (stripeWebhook env event s).store =
         updateTransactionStatus s t.id .completed ∧
       (stripeWebhook env event s).notifications =
         [{ username := event.metaUsername,
            amount := (event.amountCents : ℚ) / 100,
            credits := event.metaCredits, transactionId := t.id,
            paymentMethod := "Stripe" }] ∧
       (stripeWebhook env event s).response = .success none) ∧
    (event.eventType ≠ "payment_intent.succeeded" →
       stripeWebhook env event s =
         { response := .success none, store := s, notifications := [] }) := by
  constructor
  · intro t htype hfind
    simp [stripeWebhook, hsec, hcfg, hsig, htype, hfind]
  · intro htype
    simp [stripeWebhook, hsec, hcfg, hsig, htype]

/-- C8 amended witness: the settlement event against the pending store
and the failure event against the same store. -/
theorem c8_amended_witness :
    ((stripeWebhook envOk evtSucceeded1 storePending1).store =
       updateTransactionStatus storePending1 txPending1.id .completed ∧
     (stripeWebhook envOk evtSucceeded1 storePending1).notifications =
       [{ username := evtSucceeded1.metaUsername,
          amount := (evtSucceeded1.amountCents : ℚ) / 100,
          credits := evtSucceeded1.metaCredits,
          transactionId := txPending1.id, paymentMethod := "Stripe" }] ∧
     (stripeWebhook envOk evtSucceeded1 storePending1).response = .success none) ∧
    stripeWebhook envOk evtFailed1 storePending1 =
      { response := .success none, store := storePending1,
        notifications := [] } :=
  ⟨(c8_amended envOk evtSucceeded1 storePending1 rfl rfl rfl).1 txPending1
      rfl (by decide),
   (c8_amended envOk evtFailed1 storePending1 rfl rfl rfl).2 (by decide)⟩

/-! Claim C9: credits round trip. -/

/-- Membership in the store produced by inserting a fresh row and then
updating that row's status: every member is an old row or the new row
with the written status. -/
theorem mem_update_append (txs : List Transaction) (n : Nat)
    (tNew : Transaction) (hNew : tNew.id = n) (st : Status)
    (hfresh : ∀ u ∈ txs, u.id < n) (t : Transaction)
    (hm : t ∈ (updateTransactionStatus
        { txs := txs ++ [tNew], nextId := n + 1 } n st).txs) :
    t ∈ txs ∨ t = { tNew with paymentStatus := st } := by
  simp only [updateTransactionStatus, List.map_append, List.mem_append,
    List.map_cons, List.map_nil, List.mem_singleton] at hm
  rcases hm with hm | hm
  · left
    obtain ⟨v, hv, hfv⟩ := List.mem_map.mp hm
    have hne : v.id ≠ n := Nat.ne_of_lt (hfresh v hv)
    rw [if_neg hne] at hfv
    exact hfv ▸ hv
  · right
    rw [hm, if_pos hNew]

/-- C9: every Transaction row a Begin Payment handler creates takes its
credits field from the resolved Credit Package's credits field — never
a value derived from the amount; no handler can create a row without a
resolvable package id, so the custom-amount-without-package case cannot
arise.  The cellpay and trustly parts assume the id-counter invariant
that existing rows have ids below the generator. -/
theorem c9_credits :
    (∀ (env : StripeEnv) (catalog : List CreditPackage)
       (req : PaymentIntentRequest) (s : Store) (t : Transaction),
       t ∈ (createPaymentIntent env catalog req s).store.txs → t ∉ s.txs →
       ∃ pid pkg, req.packageId = some pid ∧
         getCreditPackage catalog pid = some pkg ∧ t.credits = pkg.credits) ∧
    (∀ (catalog : List CreditPackage) (req : CellPayRequest)
       (a : AdapterResult) (s : Store) (t : Transaction),
       (∀ u ∈ s.txs, u.id < s.nextId) →
       t ∈ (cellpayPayment catalog req a s).store.txs → t ∉ s.txs →
       ∃ pid pkg, req.packageId = some pid ∧
         getCreditPackage catalog pid = some pkg ∧ t.credits = pkg.credits) ∧
    (∀ (catalog : List CreditPackage) (req : TrustlyRequest)
       (a : AdapterResult) (s : Store) (t : Transaction),
       (∀ u ∈ s.txs, u.id < s.nextId) →
       t ∈ (trustlyPayment catalog req a s).store.txs → t ∉ s.txs →
       ∃ pid pkg, req.packageId = some pid ∧
         getCreditPackage catalog pid = some pkg ∧ t.credits = pkg.credits) := by
  refine ⟨?_, ?_, ?_⟩
  · intro env catalog req s t hm hnot
    rcases req with ⟨oa, ou, op, pm⟩
    rcases oa with _ | amount
    · simp [createPaymentIntent] at hm
      exact absurd hm hnot
    rcases ou with _ | username
    · simp [createPaymentIntent] at hm
      exact absurd hm hnot
    rcases op with _ | packageId
    · simp [createPaymentIntent] at hm
      exact absurd hm hnot
    by_cases h0 : amount = 0 ∨ username = "" ∨ packageId = ""
    · simp [createPaymentIntent, if_pos h0] at hm
      exact absurd hm hnot
    cases hpkg : getCreditPackage catalog packageId with
    | none =>
      simp [createPaymentIntent, if_neg h0, hpkg] at hm
      exact absurd hm hnot
    | some pkg =>
      cases hcfg : env.stripeConfigured with
      | false =>
        simp [createPaymentIntent, if_neg h0, hpkg, hcfg] at hm
        exact absurd hm hnot
      | true =>
        refine ⟨packageId, pkg, rfl, hpkg, ?_⟩
        simp [createPaymentIntent, if_neg h0, hpkg, hcfg,
          createTransaction] at hm
        rcases hm with hm | hm
        · exact absurd hm hnot
        · rw [hm]
  · intro catalog req a s t hfresh hm hnot
    rcases req with ⟨oa, ou, op, oph⟩
    rcases oa with _ | amount
    · simp [cellpayPayment] at hm
      exact absurd hm hnot
    rcases ou with _ | username
    · simp [cellpayPayment] at hm
      exact absurd hm hnot
    rcases op with _ | packageId
    · simp [cellpayPayment] at hm
      exact absurd hm hnot
    rcases oph with _ | phone
    · simp [cellpayPayment] at hm
      exact absurd hm hnot
    by_cases h0 : amount = 0 ∨ username = "" ∨ packageId = "" ∨ phone = ""
    · simp [cellpayPayment, if_pos h0] at hm
      exact absurd hm hnot
    cases hpkg : getCreditPackage catalog packageId with
    | none =>
      simp [cellpayPayment, if_neg h0, hpkg] at hm
      exact absurd hm hnot
    | some pkg =>
      refine ⟨packageId, pkg, rfl, hpkg, ?_⟩
      rcases a with tid | e <;>
      · simp only [cellpayPayment, if_neg h0, hpkg, createTransaction] at hm
        rcases mem_update_append s.txs s.nextId _ rfl _ hfresh t hm with hm | hm
        · exact absurd hm hnot
        · rw [hm]
  · intro catalog req a s t hfresh hm hnot
    rcases req with ⟨oa, ou, op, oc, ofn, oln, oe⟩
    rcases oa with _ | amount
    · simp [trustlyPayment] at hm
      exact absurd hm hnot
    rcases ou with _ | username
    · simp [trustlyPayment] at hm
      exact absurd hm hnot
    rcases op with _ | packageId
    · simp [trustlyPayment] at hm
      exact absurd hm hnot
    rcases oc with _ | country
    · simp [trustlyPayment] at hm
      exact absurd hm hnot
    rcases ofn with _ | firstName
    · simp [trustlyPayment] at hm
      exact absurd hm hnot
    rcases oln with _ | lastName
    · simp [trustlyPayment] at hm
      exact absurd hm hnot
    rcases oe with _ | email
    · simp [trustlyPayment] at hm
      exact absurd hm hnot
    by_cases h0 : amount = 0 ∨ username = "" ∨ packageId = "" ∨
      country = "" ∨ firstName = "" ∨ lastName = "" ∨ email = ""
    · simp [trustlyPayment, if_pos h0] at hm
      exact absurd hm hnot
    cases hpkg : getCreditPackage catalog packageId with
    | none =>
      simp [trustlyPayment, if_neg h0, hpkg] at hm
      exact absurd hm hnot
    | some pkg =>
      refine ⟨packageId, pkg, rfl, hpkg, ?_⟩
      rcases a with tid | e <;>
      · simp only [trustlyPayment, if_neg h0, hpkg, createTransaction] at hm
        rcases mem_update_append s.txs s.nextId _ rfl _ hfresh t hm with hm | hm
        · exact absurd hm hnot
        · rw [hm]

/-- C9 witness: the row the cellpay flow creates from the gold package
carries that package's credits. -/
theorem c9_credits_witness :
    ∃ pid pkg, cellReq25.packageId = some pid ∧
      getCreditPackage catalog1 pid = some pkg ∧
      ({ id := 1, username := "dave", packageId := "gold", amount := 25,
         credits := 1000, paymentMethod := "cellpay",
         paymentStatus := Status.completed,
         stripePaymentIntentId := none } : Transaction).credits =
        pkg.credits :=
  c9_credits.2.1 catalog1 cellReq25 (.success "cp_1") store0
    { id := 1, username := "dave", packageId := "gold", amount := 25,
      credits := 1000, paymentMethod := "cellpay",
      paymentStatus := Status.completed, stripePaymentIntentId := none }
    (by decide) (by decide) (by decide)

/-! Claim C10: the Trustly reconciliation key is the transaction id. -/

/-- C10: the begin-payment side sends the provider a messageid equal to
the freshly created Transaction's own id, and the Trustly webhook
reconciles a credit notification by fetching the transaction directly
by that id: a credit event whose messageid matches a stored id settles
exactly that transaction (rows with other ids survive untouched) with
one notification, and a credit event matching nothing leaves the store
unchanged while still being acknowledged with a success OK response. -/
theorem c10_trustly_reconciliation :
    (∀ (catalog : List CreditPackage) (req : TrustlyRequest)
       (a : AdapterResult) (s : Store) (amount : ℚ)
       (username packageId country firstName lastName email : String)
       (pkg : CreditPackage),
       req.amount = some amount → req.username = some username →
       req.packageId = some packageId → req.country = some country →
       req.firstName = some firstName → req.lastName = some lastName →
       req.email = some email →
       amount ≠ 0 → username ≠ "" → packageId ≠ "" → country ≠ "" →
       firstName ≠ "" → lastName ≠ "" → email ≠ "" →
       getCreditPackage catalog packageId = some pkg →
       (trustlyPayment catalog req a s).deposit =
         some { enduserid := email, messageid := s.nextId,
                amount := amount, currency := "USD" } ∧
       ∃ t ∈ (trustlyPayment catalog req a s).store.txs, t.id = s.nextId) ∧
    (∀ (key : Bool) (n : TrustlyNotification) (s : Store) (t : Transaction),
       n.method = "credit" → n.hasParams = true →
       getTransaction s n.messageid = some t →
       t.id = n.messageid ∧
       (trustlyWebhook key n s).response = .success none ∧
       (trustlyWebhook key n s).store =
         updateTransactionStatus s n.messageid .completed ∧
       (trustlyWebhook key n s).notifications.length = 1 ∧
       ∀ u ∈ s.txs, u.id ≠ n.messageid →
         u ∈ (trustlyWebhook key n s).store.txs) ∧
    (∀ (key : Bool) (n : TrustlyNotification) (s : Store),
       n.method = "credit" → n.hasParams = true →
       getTransaction s n.messageid = none →
       trustlyWebhook key n s =
         { response := .success none, store := s, notifications := [] }) := by
  refine ⟨?_, ?_, ?_⟩
  · intro catalog req a s amount username packageId country firstName
      lastName email pkg ha hu hp hc hf hl he ha0 hu0 hp0 hc0 hf0 hl0 he0 hpkg
    constructor
    · rcases a with tid | e <;>
        simp [trustlyPayment, ha, hu, hp, hc, hf, hl, he, ha0, hu0, hp0,
          hc0, hf0, hl0, he0, hpkg, createTransaction]
    · rcases a with tid | e
      · simp [trustlyPayment, ha, hu, hp, hc, hf, hl, he, ha0, hu0, hp0,
          hc0, hf0, hl0, he0, hpkg, createTransaction,
          updateTransactionStatus]
        exact ⟨{ id := s.nextId, username := username,
                 packageId := packageId, amount := amount,
                 credits := pkg.credits, paymentMethod := "trustly",
                 paymentStatus := .completed,
                 stripePaymentIntentId := none }, Or.inr rfl, rfl⟩
      · simp [trustlyPayment, ha, hu, hp, hc, hf, hl, he, ha0, hu0, hp0,
          hc0, hf0, hl0, he0, hpkg, createTransaction,
          updateTransactionStatus]
        exact ⟨{ id := s.nextId, username := username,
                 packageId := packageId, amount := amount,
                 credits := pkg.credits, paymentMethod := "trustly",
                 paymentStatus := .failed,
                 stripePaymentIntentId := none }, Or.inr rfl, rfl⟩
  · intro key n s t hm hp hfind
    have hid : t.id = n.messageid := getTransaction_id s n.messageid t hfind
    refine ⟨hid, ?_, ?_, ?_, ?_⟩
    · simp [trustlyWebhook, hm, hp, hfind]
    · rw [← hid]
      simp [trustlyWebhook, hm, hp, hfind]
    · simp [trustlyWebhook, hm, hp, hfind]
    · intro u hu hne
      have hst : (trustlyWebhook key n s).store =
          updateTransactionStatus s t.id .completed := by
        simp [trustlyWebhook, hm, hp, hfind]
      rw [hst]
      exact updateTransactionStatus_mem_of_ne s t.id .completed u hu
        (hid ▸ hne)
  · intro key n s hm hp hnone
    simp [trustlyWebhook, hm, hp, hnone]

/-- C10 witness: the begin-payment deposit for the concrete request,
the credit event matching transaction 1, and the unmatched credit
event. -/
theorem c10_trustly_reconciliation_witness :
    ((trustlyPayment catalog1 trustlyReq25 (.success "tr_1") store0).deposit =
       some { enduserid := "erin@example.com", messageid := store0.nextId,
              amount := 25, currency := "USD" } ∧
     ∃ t ∈ (trustlyPayment catalog1 trustlyReq25
        (.success "tr_1") store0).store.txs, t.id = store0.nextId) ∧
    (txPending1.id = creditNotif1.messageid ∧
     (trustlyWebhook false creditNotif1 storePending1).response = .success none ∧
     (trustlyWebhook false creditNotif1 storePending1).store =
       updateTransactionStatus storePending1 creditNotif1.messageid .completed ∧
     (trustlyWebhook false creditNotif1 storePending1).notifications.length = 1 ∧
     ∀ u ∈ storePending1.txs, u.id ≠ creditNotif1.messageid →
       u ∈ (trustlyWebhook false creditNotif1 storePending1).store.txs) ∧
    trustlyWebhook false creditNotifUnknown storePending1 =
      { response := .success none, store := storePending1,
        notifications := [] } :=
  ⟨c10_trustly_reconciliation.1 catalog1 trustlyReq25 (.success "tr_1")
      store0 25 "erin" "gold" "US" "Erin" "Example" "erin@example.com"
      pkgGold rfl rfl rfl rfl rfl rfl rfl (by decide) (by decide) (by decide)
      (by decide) (by decide) (by decide) (by decide) (by decide),
   c10_trustly_reconciliation.2.1 false creditNotif1 storePending1 txPending1
      rfl rfl (by decide),
   c10_trustly_reconciliation.2.2 false creditNotifUnknown storePending1
      rfl rfl (by decide)⟩

end CaptainCashout
